import Mathlib

/-!
Verification development for the webmesh-react connection layer
(`src/useWebmesh.ts`).

The hook keeps a local registry of `Network` entities synchronized with a
daemon over RPC.  We embed the registry (`networks` state plus
`upsertNetwork` / `removeNetwork`), the workflow operations
(`listNetworks`, `putNetwork`, `getNetwork`, `connect`, `dropNetwork`),
and the timer lifecycle (list-refresh timer and per-connection metrics
timer) as pure Lean functions.  Every fallible RPC is modelled by passing
its outcome (`Except Err _`) explicitly; each operation also reports the
list of RPCs it issued, so that claims about "no RPC is issued" are
statable.
-/

deriving instance DecidableEq for Except

namespace Webmesh

/-- Connection status as reported by the daemon (`DaemonConnStatus`). -/
inductive ConnStatus where
  | disconnected
  | connecting
  | connected
  | disconnecting
  | errorState
  deriving DecidableEq, Repr

/-- Errors are opaque to this layer; only the locally synthesized
invalid-argument message is ever inspected, so a plain string suffices. -/
abbrev Err := String

/-- The body of a `GetConnectionResponse`: status plus the opaque
parameters and metadata payloads (type parameters `P`, `M`). -/
structure ConnResponse (P M : Type) where
  status : ConnStatus
  parameters : Option P
  metadata : Option M
  deriving DecidableEq, Repr

/-- A `Network` entity as stored in the registry: the daemon-assigned id
together with the last known connection snapshot.  The non-owning client
reference carried by the TypeScript class has no observable state and is
omitted. -/
structure Network (P M : Type) where
  id : String
  status : ConnStatus
  parameters : Option P
  metadata : Option M
  deriving DecidableEq, Repr

/-- `new Network(client, id, conn)`: build the entity from a connection
snapshot returned by the daemon. -/
def Network.ofResponse {P M : Type} (id : String) (r : ConnResponse P M) :
    Network P M :=
  ⟨id, r.status, r.parameters, r.metadata⟩

/-- The `connected` accessor of a `Network`: true exactly when the last
known status is `connected`. -/
def Network.connected {P M : Type} (n : Network P M) : Bool :=
  n.status = ConnStatus.connected

/-- `Parameters` / `NetworkParameters` as passed to `putNetwork` and
`connect`: an optional id, optional connection parameters and optional
metadata. -/
structure NetworkParameters (P M : Type) where
  id : Option String
  params : Option P
  meta : Option M
  deriving DecidableEq, Repr

/-- The RPCs the layer can issue against the daemon client, recorded as a
trace by each operation. -/
inductive Rpc where
  | statusRpc
  | listConnections
  | getConnection (id : String)
  | putConnection (id : Option String)
  | connectRpc (id : String)
  | disconnectRpc (id : String)
  | dropRpc (id : String)
  | metricsRpc (id : String)
  deriving DecidableEq, Repr

/-- `upsertNetwork`: `findIndex` the first entry whose id matches, and
`splice(i, 1, conn)` it in place when found; otherwise `push` at the end. -/
def upsertNetwork {P M : Type} :
    List (Network P M) → Network P M → List (Network P M)
  | [], conn => [conn]
  | c :: rest, conn =>
      if c.id = conn.id then conn :: rest
      else c :: upsertNetwork rest conn

/-- `removeNetwork`: `findIndex` the first entry whose id matches and
`splice(i, 1)` it out when found; no-op otherwise. -/
def removeNetwork {P M : Type} :
    List (Network P M) → String → List (Network P M)
  | [], _ => []
  | c :: rest, id =>
      if c.id = id then rest
      else c :: removeNetwork rest id

/-- The registry invariant: ids are pairwise distinct. -/
def RegistryOk {P M : Type} (networks : List (Network P M)) : Prop :=
  (networks.map Network.id).Nodup

instance {P M : Type} (networks : List (Network P M)) :
    Decidable (RegistryOk networks) := by
  unfold RegistryOk; infer_instance

/-- The outcome of one workflow operation: the registry afterwards, the
settled promise value, and the RPCs issued during the operation. -/
structure OpResult (P M α : Type) where
  networks : List (Network P M)
  result : Except Err α
  rpcs : List Rpc
  deriving DecidableEq, Repr

/-- `listNetworks()`: issue `listConnections`; on success build one
`Network` per returned `(id, conn)` entry, replace the registry with that
list and resolve with it; on failure reject and leave the registry
untouched. -/
def listNetworks {P M : Type} (networks : List (Network P M))
    (resp : Except Err (List (String × ConnResponse P M))) :
    OpResult P M (List (Network P M)) :=
  match resp with
  | .ok conns =>
      let data := conns.map fun e => Network.ofResponse e.1 e.2
      ⟨data, .ok data, [.listConnections]⟩
  | .error e => ⟨networks, .error e, [.listConnections]⟩

/-- `putNetwork(params)`: issue `putConnection` with the given
id/parameters/metadata; on success build a `Network` from the returned id
with status `disconnected` and the supplied parameters and metadata,
upsert it, and resolve with it; on failure reject. -/
def putNetwork {P M : Type} (networks : List (Network P M))
    (params : NetworkParameters P M) (resp : Except Err String) :
    OpResult P M (Network P M) :=
  match resp with
  | .ok rid =>
      let conn : Network P M :=
        ⟨rid, ConnStatus.disconnected, params.params, params.meta⟩
      ⟨upsertNetwork networks conn, .ok conn, [.putConnection params.id]⟩
  | .error e => ⟨networks, .error e, [.putConnection params.id]⟩

/-- `getNetwork(id)`: issue `getConnection`; on success build the refreshed
`Network`, upsert it and resolve with it; on failure reject. -/
def getNetwork {P M : Type} (networks : List (Network P M)) (id : String)
    (resp : Except Err (ConnResponse P M)) : OpResult P M (Network P M) :=
  match resp with
  | .ok r =>
      let conn := Network.ofResponse id r
      ⟨upsertNetwork networks conn, .ok conn, [.getConnection id]⟩
  | .error e => ⟨networks, .error e, [.getConnection id]⟩

/-- The invalid-argument error `connect` synthesizes locally when given
neither creation parameters nor an id. -/
def noConnParamsError : Err := "no connection parameters provided"

/-- `connect(params)`: if metadata or parameters are present (JS
truthiness on the two object fields) run `putNetwork` then the
entity-level `connect` RPC; else if the id is truthy (present and
non-empty) run `getNetwork` then the entity-level `connect` RPC; else
reject locally with `noConnParamsError` without issuing any RPC.
`putResp`, `getResp` and `connectResp` are the outcomes of the RPCs the
chosen path issues. -/
def connect {P M : Type} (networks : List (Network P M))
    (params : NetworkParameters P M) (putResp : Except Err String)
    (getResp : Except Err (ConnResponse P M))
    (connectResp : Except Err Unit) : OpResult P M (Network P M) :=
  if params.meta.isSome || params.params.isSome then
    let put := putNetwork networks params putResp
    match put.result with
    | .ok conn =>
        match connectResp with
        | .ok _ => ⟨put.networks, .ok conn, put.rpcs ++ [.connectRpc conn.id]⟩
        | .error e =>
            ⟨put.networks, .error e, put.rpcs ++ [.connectRpc conn.id]⟩
    | .error e => ⟨put.networks, .error e, put.rpcs⟩
  else
    match params.id with
    | some pid =>
        if pid = "" then ⟨networks, .error noConnParamsError, []⟩
        else
          let gt := getNetwork networks pid getResp
          match gt.result with
          | .ok conn =>
              match connectResp with
              | .ok _ =>
                  ⟨gt.networks, .ok conn, gt.rpcs ++ [.connectRpc conn.id]⟩
              | .error e =>
                  ⟨gt.networks, .error e, gt.rpcs ++ [.connectRpc conn.id]⟩
          | .error e => ⟨gt.networks, .error e, gt.rpcs⟩
    | none => ⟨networks, .error noConnParamsError, []⟩

/-- `dropNetwork(id)`: run `getNetwork(id)`; on its failure reject with
that failure (the drop RPC is never issued) — the `finally` clause still
removes the id from the registry.  On success issue the entity-level
`drop` RPC; the `finally` removal runs as soon as the outer chain settles,
then on drop success the inner handler removes the id again (a no-op) and
resolves, while on drop failure the promise rejects with the drop error. -/
def dropNetwork {P M : Type} (networks : List (Network P M)) (id : String)
    (getResp : Except Err (ConnResponse P M)) (dropResp : Except Err Unit) :
    OpResult P M Unit :=
  match getResp with
  | .error e => ⟨removeNetwork networks id, .error e, [.getConnection id]⟩
  | .ok r =>
      let afterGet := (getNetwork networks id (.ok r)).networks
      let afterFinally := removeNetwork afterGet id
      match dropResp with
      | .ok _ =>
          ⟨removeNetwork afterFinally id, .ok (),
            [.getConnection id, .dropRpc id]⟩
      | .error e =>
          ⟨afterFinally, .error e, [.getConnection id, .dropRpc id]⟩

/-- `networks.find((c) => c.id === id)`: first entry with the given id. -/
def findNetwork {P M : Type} (networks : List (Network P M)) (id : String) :
    Option (Network P M) :=
  networks.find? fun c => c.id == id

/-- The observable state of one `useWebmesh` session together with one
`deviceMetrics` observable: the registry, the session error, the two
timer-active flags (cleared by the respective `clearInterval`), the
per-request metrics value, and counts of in-flight RPCs issued by each
timer. -/
structure Session (P M X : Type) where
  networks : List (Network P M)
  sessionError : Option Err
  listActive : Bool
  metricsActive : Bool
  metricsValue : Option X
  pendingList : Nat
  pendingMetrics : Nat
  deriving DecidableEq, Repr

/-- Events of the cooperative scheduler: timer ticks, completions of
in-flight RPCs, and the two teardowns (`clearInterval` calls). -/
inductive SessionEvent (P M X : Type) where
  | listTick
  | listComplete (resp : Except Err (List (String × ConnResponse P M)))
  | listTeardown
  | metricsTick (id : String)
  | metricsComplete (resp : Except Err X)
  | metricsTeardown
  deriving DecidableEq, Repr

/-- One scheduler step.  A tick fires only while its timer is active
(`clearInterval` cancels all future ticks).  The list tick issues
`listConnections`; its completion applies `setNetworks` on success or
`setError` on failure — the code has no teardown guard, so a completion is
applied whether or not the timer is still active.  The metrics tick looks
the id up in the registry and skips (no RPC) when the entry is absent or
not connected; its completion applies `setMetrics` or `setError`, again
unguarded.  A completion event with no matching in-flight call does
nothing. -/
def stepSession {P M X : Type} (s : Session P M X) :
    SessionEvent P M X → Session P M X × List Rpc
  | .listTick =>
      if s.listActive then
        ({ s with pendingList := s.pendingList + 1 }, [.listConnections])
      else (s, [])
  | .listComplete resp =>
      if s.pendingList = 0 then (s, [])
      else
        match resp with
        | .ok conns =>
            ({ s with
                networks := conns.map (fun e => Network.ofResponse e.1 e.2),
                pendingList := s.pendingList - 1 }, [])
        | .error e =>
            ({ s with
                sessionError := some e,
                pendingList := s.pendingList - 1 }, [])
  | .listTeardown => ({ s with listActive := false }, [])
  | .metricsTick id =>
      if s.metricsActive then
        match findNetwork s.networks id with
        | none => (s, [])
        | some conn =>
            if conn.connected then
              ({ s with pendingMetrics := s.pendingMetrics + 1 },
                [.metricsRpc id])
            else (s, [])
      else (s, [])
  | .metricsComplete resp =>
      if s.pendingMetrics = 0 then (s, [])
      else
        match resp with
        | .ok m =>
            ({ s with
                metricsValue := some m,
                pendingMetrics := s.pendingMetrics - 1 }, [])
        | .error e =>
            ({ s with
                sessionError := some e,
                pendingMetrics := s.pendingMetrics - 1 }, [])
  | .metricsTeardown => ({ s with metricsActive := false }, [])

/-- Run a sequence of scheduler events, accumulating the issued RPCs. -/
def runSession {P M X : Type} (s : Session P M X) :
    List (SessionEvent P M X) → Session P M X × List Rpc
  | [] => (s, [])
  | e :: rest =>
      let step := stepSession s e
      let run := runSession step.1 rest
      (run.1, step.2 ++ run.2)

/-- Registry mutations as they occur across a session: full replacement by
a list refresh, upsert by `putNetwork` / `getNetwork`, removal by
`dropNetwork`. -/
inductive RegOp (P M : Type) where
  | replaceAll (conns : List (String × ConnResponse P M))
  | upsert (conn : Network P M)
  | remove (id : String)
  deriving DecidableEq, Repr

/-- Apply one registry mutation. -/
def applyOp {P M : Type} (networks : List (Network P M)) :
    RegOp P M → List (Network P M)
  | .replaceAll conns => conns.map fun e => Network.ofResponse e.1 e.2
  | .upsert conn => upsertNetwork networks conn
  | .remove id => removeNetwork networks id

/-- Apply a sequence of registry mutations in order. -/
def applyOps {P M : Type} (networks : List (Network P M)) :
    List (RegOp P M) → List (Network P M)
  | [] => networks
  | op :: rest => applyOps (applyOp networks op) rest

end Webmesh

namespace Webmesh

/-- Sample connection snapshot in the `connected` status. -/
def rcA : ConnResponse Nat Nat := ⟨ConnStatus.connected, some 1, some 2⟩

/-- Sample connection snapshot in the `disconnected` status. -/
def rcB : ConnResponse Nat Nat := ⟨ConnStatus.disconnected, some 3, none⟩

/-- Sample entity with id `"a"`, connected. -/
def netA : Network Nat Nat := Network.ofResponse "a" rcA

/-- Sample entity with id `"b"`, disconnected. -/
def netB : Network Nat Nat := Network.ofResponse "b" rcB

/-- A freshly created session: empty registry, both timers running, no
in-flight calls. -/
def sessionStart : Session Nat Nat Nat := ⟨[], none, true, true, none, 0, 0⟩

theorem mem_upsertNetwork {P M : Type} (nets : List (Network P M))
    (conn : Network P M) : conn ∈ upsertNetwork nets conn := by
  induction nets with
  | nil => simp [upsertNetwork]
  | cons c rest ih =>
      by_cases h : c.id = conn.id <;> simp [upsertNetwork, h, ih]

theorem mem_ids_upsertNetwork {P M : Type} (nets : List (Network P M))
    (conn : Network P M) (x : String)
    (hx : x ∈ (upsertNetwork nets conn).map Network.id) :
    x = conn.id ∨ x ∈ nets.map Network.id := by
  induction nets with
  | nil =>
      simp only [upsertNetwork, List.map_cons, List.map_nil, List.mem_cons,
        List.not_mem_nil, or_false] at hx
      exact Or.inl hx
  | cons c rest ih =>
      by_cases h : c.id = conn.id
      · simp only [upsertNetwork, if_pos h, List.map_cons, List.mem_cons] at hx
        simp only [List.map_cons, List.mem_cons]
        rcases hx with hx | hx
        · exact Or.inl hx
        · exact Or.inr (Or.inr hx)
      · simp only [upsertNetwork, if_neg h, List.map_cons, List.mem_cons] at hx
        simp only [List.map_cons, List.mem_cons]
        rcases hx with hx | hx
        · exact Or.inr (Or.inl hx)
        · rcases ih hx with h1 | h1
          · exact Or.inl h1
          · exact Or.inr (Or.inr h1)

theorem registryOk_upsertNetwork {P M : Type} (nets : List (Network P M))
    (conn : Network P M) (h : RegistryOk nets) :
    RegistryOk (upsertNetwork nets conn) := by
  induction nets with
  | nil => simp [upsertNetwork, RegistryOk]
  | cons c rest ih =>
      rw [RegistryOk, List.map_cons, List.nodup_cons] at h
      by_cases hc : c.id = conn.id
      · rw [RegistryOk]
        simp only [upsertNetwork, if_pos hc, List.map_cons, List.nodup_cons]
        exact ⟨hc ▸ h.1, h.2⟩
      · rw [RegistryOk]
        simp only [upsertNetwork, if_neg hc, List.map_cons, List.nodup_cons]
        refine ⟨?_, ih h.2⟩
        intro hmem
        rcases mem_ids_upsertNetwork rest conn c.id hmem with h1 | h1
        · exact hc h1
        · exact h.1 h1

theorem removeNetwork_sublist {P M : Type} (nets : List (Network P M))
    (id : String) : List.Sublist (removeNetwork nets id) nets := by
  induction nets with
  | nil => simp [removeNetwork]
  | cons c rest ih =>
      by_cases h : c.id = id
      · simp only [removeNetwork, if_pos h]
        exact List.Sublist.cons c (List.Sublist.refl rest)
      · simp only [removeNetwork, if_neg h]
        exact List.Sublist.cons₂ c ih

theorem registryOk_removeNetwork {P M : Type} (nets : List (Network P M))
    (id : String) (h : RegistryOk nets) :
    RegistryOk (removeNetwork nets id) :=
  List.Nodup.sublist (List.Sublist.map Network.id (removeNetwork_sublist nets id)) h

theorem not_mem_ids_removeNetwork {P M : Type} (nets : List (Network P M))
    (id : String) (h : RegistryOk nets) :
    id ∉ (removeNetwork nets id).map Network.id := by
  induction nets with
  | nil => simp [removeNetwork]
  | cons c rest ih =>
      rw [RegistryOk, List.map_cons, List.nodup_cons] at h
      by_cases hc : c.id = id
      · simp only [removeNetwork, if_pos hc]
        exact hc ▸ h.1
      · simp only [removeNetwork, if_neg hc, List.map_cons, List.mem_cons]
        push_neg
        exact ⟨fun e => hc e.symm, ih h.2⟩

theorem upsertNetwork_append {P M : Type} (nets : List (Network P M))
    (conn : Network P M) (h : ∀ c ∈ nets, c.id ≠ conn.id) :
    upsertNetwork nets conn = nets ++ [conn] := by
  induction nets with
  | nil => rfl
  | cons c rest ih =>
      have hc : c.id ≠ conn.id := h c (List.mem_cons_self c rest)
      simp only [upsertNetwork, if_neg hc, List.cons_append, List.cons.injEq,
        true_and]
      exact ih fun x hx => h x (List.mem_cons_of_mem c hx)

end Webmesh

namespace Webmesh

theorem upsertNetwork_replace {P M : Type} (nets : List (Network P M))
    (conn : Network P M) (i : Nat)
    (hfirst : ∀ j, j < i → ∀ b : Network P M, nets[j]? = some b →
      b.id ≠ conn.id)
    (hi : ∃ c : Network P M, nets[i]? = some c ∧ c.id = conn.id) :
    (upsertNetwork nets conn).length = nets.length ∧
    (upsertNetwork nets conn)[i]? = some conn ∧
    ∀ j, j ≠ i → (upsertNetwork nets conn)[j]? = nets[j]? := by
  induction nets generalizing i with
  | nil =>
      rcases hi with ⟨c, hc, _⟩
      simp at hc
  | cons c rest ih =>
      by_cases hc : c.id = conn.id
      · have hi0 : i = 0 := by
          by_contra hne
          exact hfirst 0 (Nat.pos_of_ne_zero hne) c (by simp) hc
        subst hi0
        simp only [upsertNetwork, if_pos hc, List.length_cons,
          List.getElem?_cons_zero, true_and]
        intro j hj
        obtain ⟨k, rfl⟩ : ∃ k, j = k + 1 := ⟨j - 1, by omega⟩
        simp
      · have hi0 : i ≠ 0 := by
          intro h0
          subst h0
          rcases hi with ⟨d, hd, hid⟩
          simp only [List.getElem?_cons_zero, Option.some.injEq] at hd
          exact hc (hd ▸ hid)
        obtain ⟨k, rfl⟩ : ∃ k, i = k + 1 := ⟨i - 1, by omega⟩
        have hfirst' : ∀ j, j < k → ∀ b : Network P M, rest[j]? = some b →
            b.id ≠ conn.id := by
          intro j hj b hb
          exact hfirst (j + 1) (by omega) b (by simpa using hb)
        have hi' : ∃ d : Network P M, rest[k]? = some d ∧ d.id = conn.id := by
          rcases hi with ⟨d, hd, hid⟩
          exact ⟨d, by simpa using hd, hid⟩
        obtain ⟨hlen, hget, hother⟩ := ih k hfirst' hi'
        simp only [upsertNetwork, if_neg hc, List.length_cons]
        refine ⟨by omega, by simpa using hget, ?_⟩
        intro j hj
        cases j with
        | zero => simp
        | succ m =>
            have hm : m ≠ k := by omega
            simpa using hother m hm

theorem registryOk_applyOps {P M : Type} (nets : List (Network P M))
    (ops : List (RegOp P M)) (hok : RegistryOk nets)
    (h : ∀ conns, RegOp.replaceAll conns ∈ ops → (conns.map Prod.fst).Nodup) :
    RegistryOk (applyOps nets ops) := by
  induction ops generalizing nets with
  | nil => exact hok
  | cons op rest ih =>
      show RegistryOk (applyOps (applyOp nets op) rest)
      apply ih
      · cases op with
        | replaceAll conns =>
            have hn := h conns (List.mem_cons_self _ _)
            show RegistryOk (conns.map fun e => Network.ofResponse e.1 e.2)
            rw [RegistryOk, List.map_map]
            simpa [Function.comp, Network.ofResponse] using hn
        | upsert conn => exact registryOk_upsertNetwork nets conn hok
        | remove id => exact registryOk_removeNetwork nets id hok
      · intro conns hm
        exact h conns (List.mem_cons_of_mem op hm)

end Webmesh

namespace Webmesh

/-- C1: a successful `listNetworks()` call replaces the registry with
exactly one `Network` per id of the daemon's `listConnections` response —
the registry ids afterwards are exactly the returned ids, with no
duplicates, so no id from a previous snapshot survives unless returned and
no returned id is missing — and the call resolves with that same
snapshot. -/
theorem C1_listNetworks_replace {P M : Type} (nets : List (Network P M))
    (conns : List (String × ConnResponse P M))
    (h : (conns.map Prod.fst).Nodup) :
    (listNetworks nets (Except.ok conns)).networks.map Network.id =
      conns.map Prod.fst ∧
    RegistryOk (listNetworks nets (Except.ok conns)).networks ∧
    (listNetworks nets (Except.ok conns)).result =
      Except.ok (listNetworks nets (Except.ok conns)).networks := by
  have hids : (listNetworks nets (Except.ok conns)).networks.map Network.id =
      conns.map Prod.fst := by
    show ((conns.map fun e => Network.ofResponse e.1 e.2).map Network.id) = _
    rw [List.map_map]
    rfl
  exact ⟨hids, by rw [RegistryOk, hids]; exact h, rfl⟩

/-- Witness for C1: a registry holding `netA` is replaced by the two
entities of a concrete response. -/
theorem C1_witness :
    (listNetworks [netA] (Except.ok [("a", rcB), ("c", rcA)])).networks.map
      Network.id = ["a", "c"] ∧
    RegistryOk (listNetworks [netA]
      (Except.ok [("a", rcB), ("c", rcA)])).networks ∧
    (listNetworks [netA] (Except.ok [("a", rcB), ("c", rcA)])).result =
      Except.ok (listNetworks [netA]
        (Except.ok [("a", rcB), ("c", rcA)])).networks :=
  C1_listNetworks_replace [netA] [("a", rcB), ("c", rcA)] (by decide)

/-- C5: a `listNetworks()` call whose `listConnections` RPC fails rejects
with that failure and leaves the registry exactly as it was. -/
theorem C5_listNetworks_failure {P M : Type} (nets : List (Network P M))
    (e : Err) :
    listNetworks nets (Except.error e) =
      ⟨nets, Except.error e, [Rpc.listConnections]⟩ := rfl

/-- C4: a successful `putNetwork(params)` call upserts into the registry,
and resolves with, an entity whose status is `disconnected` and whose
parameters and metadata are exactly those supplied in `params`. -/
theorem C4_putNetwork_disconnected {P M : Type} (nets : List (Network P M))
    (params : NetworkParameters P M) (rid : String) :
    ∃ conn : Network P M,
      (putNetwork nets params (Except.ok rid)).result = Except.ok conn ∧
      conn.status = ConnStatus.disconnected ∧
      conn.parameters = params.params ∧
      conn.metadata = params.meta ∧
      (putNetwork nets params (Except.ok rid)).networks =
        upsertNetwork nets conn ∧
      conn ∈ (putNetwork nets params (Except.ok rid)).networks :=
  ⟨⟨rid, ConnStatus.disconnected, params.params, params.meta⟩,
    rfl, rfl, rfl, rfl, rfl, mem_upsertNetwork nets _⟩

/-- C3: a `connect(params)` call carrying neither an id nor connection
parameters/metadata rejects with the locally synthesized invalid-argument
error, issues zero RPCs, and leaves the registry untouched. -/
theorem C3_connect_no_args {P M : Type} (nets : List (Network P M))
    (params : NetworkParameters P M) (putResp : Except Err String)
    (getResp : Except Err (ConnResponse P M)) (connectResp : Except Err Unit)
    (h1 : params.id = none) (h2 : params.params = none)
    (h3 : params.meta = none) :
    connect nets params putResp getResp connectResp =
      ⟨nets, Except.error noConnParamsError, []⟩ := by
  simp [connect, h1, h2, h3]

/-- Witness for C3: `connect` with empty parameters rejects locally and
issues no RPC even though all RPC outcomes stand ready to succeed. -/
theorem C3_witness :
    connect ([netA] : List (Network Nat Nat)) ⟨none, none, none⟩
      (Except.ok "x") (Except.ok rcA) (Except.ok ()) =
      ⟨[netA], Except.error noConnParamsError, []⟩ :=
  C3_connect_no_args [netA] ⟨none, none, none⟩ (Except.ok "x")
    (Except.ok rcA) (Except.ok ()) rfl rfl rfl

/-- C2: a `dropNetwork(id)` call whose `getNetwork` step succeeds but whose
entity-level `drop` RPC fails still removes the id from the registry, while
the operation rejects with the remote drop failure; both the `getConnection`
and the `drop` RPC were issued. -/
theorem C2_dropNetwork_remote_failure {P M : Type}
    (nets : List (Network P M)) (id : String) (r : ConnResponse P M)
    (e : Err) (h : RegistryOk nets) :
    (dropNetwork nets id (Except.ok r) (Except.error e)).result =
      Except.error e ∧
    id ∉ (dropNetwork nets id (Except.ok r) (Except.error e)).networks.map
      Network.id ∧
    (dropNetwork nets id (Except.ok r) (Except.error e)).rpcs =
      [Rpc.getConnection id, Rpc.dropRpc id] := by
  refine ⟨rfl, ?_, rfl⟩
  have h1 : RegistryOk (upsertNetwork nets (Network.ofResponse id r)) :=
    registryOk_upsertNetwork nets _ h
  simpa [dropNetwork, getNetwork] using
    not_mem_ids_removeNetwork (upsertNetwork nets (Network.ofResponse id r))
      id h1

/-- Witness for C2: dropping `"a"` from a registry holding `netA` with a
failing drop RPC removes the entry and rejects with the drop error. -/
theorem C2_witness :
    (dropNetwork [netA] "a" (Except.ok rcA) (Except.error "boom")).result =
      Except.error "boom" ∧
    "a" ∉ (dropNetwork [netA] "a" (Except.ok rcA)
      (Except.error "boom")).networks.map Network.id ∧
    (dropNetwork [netA] "a" (Except.ok rcA) (Except.error "boom")).rpcs =
      [Rpc.getConnection "a", Rpc.dropRpc "a"] :=
  C2_dropNetwork_remote_failure [netA] "a" rcA "boom" (by decide)

/-- C10: a `dropNetwork(id)` call whose initial `getNetwork` step fails
still removes the id from the registry — the cleanup runs on every
completion path — while the operation rejects with the `getNetwork`
failure, and the drop RPC is never issued (only `getConnection` is). -/
theorem C10_dropNetwork_get_failure {P M : Type}
    (nets : List (Network P M)) (id : String) (e : Err)
    (dropResp : Except Err Unit) (h : RegistryOk nets) :
    (dropNetwork nets id (Except.error e) dropResp).result =
      Except.error e ∧
    id ∉ (dropNetwork nets id (Except.error e) dropResp).networks.map
      Network.id ∧
    (dropNetwork nets id (Except.error e) dropResp).rpcs =
      [Rpc.getConnection id] := by
  refine ⟨rfl, ?_, rfl⟩
  simpa [dropNetwork] using not_mem_ids_removeNetwork nets id h

/-- Witness for C10: dropping `"a"` when the `getConnection` RPC fails
still removes the entry, rejects with the get failure, and issues no drop
RPC. -/
theorem C10_witness :
    (dropNetwork [netA] "a" (Except.error "gone") (Except.ok ())).result =
      Except.error "gone" ∧
    "a" ∉ (dropNetwork [netA] "a" (Except.error "gone")
      (Except.ok ())).networks.map Network.id ∧
    (dropNetwork [netA] "a" (Except.error "gone") (Except.ok ())).rpcs =
      [Rpc.getConnection "a"] :=
  C10_dropNetwork_get_failure [netA] "a" "gone" (Except.ok ()) (by decide)

end Webmesh

namespace Webmesh

/-- C6: `upsertNetwork` replaces the existing entry in place — same
position, same length, all other entries untouched — when an entry with
the entity's id exists (the first such entry), and appends the entity at
the end when no entry has that id. -/
theorem C6_upsertNetwork_spec {P M : Type} (nets : List (Network P M))
    (conn : Network P M) :
    ((∀ c ∈ nets, c.id ≠ conn.id) →
      upsertNetwork nets conn = nets ++ [conn]) ∧
    (∀ i : Nat,
      (∀ j, j < i → ∀ b : Network P M, nets[j]? = some b →
        b.id ≠ conn.id) →
      (∃ c : Network P M, nets[i]? = some c ∧ c.id = conn.id) →
      (upsertNetwork nets conn).length = nets.length ∧
      (upsertNetwork nets conn)[i]? = some conn ∧
      ∀ j, j ≠ i → (upsertNetwork nets conn)[j]? = nets[j]?) :=
  ⟨upsertNetwork_append nets conn,
    fun i hfirst hi => upsertNetwork_replace nets conn i hfirst hi⟩

/-- Witness for C6: upserting an entity whose id matches the second entry
of a two-entry registry replaces position 1, keeps the length and position
0 unchanged. -/
theorem C6_witness :
    (upsertNetwork [netA, netB] (Network.ofResponse "b" rcA)).length = 2 ∧
    (upsertNetwork [netA, netB] (Network.ofResponse "b" rcA))[1]? =
      some (Network.ofResponse "b" rcA) ∧
    ∀ j, j ≠ 1 →
      (upsertNetwork [netA, netB] (Network.ofResponse "b" rcA))[j]? =
        [netA, netB][j]? :=
  (C6_upsertNetwork_spec [netA, netB] (Network.ofResponse "b" rcA)).2 1
    (by
      intro j hj b hb
      have hj0 : j = 0 := by omega
      subst hj0
      simp only [List.getElem?_cons_zero, Option.some.injEq] at hb
      subst hb
      decide)
    ⟨netB, by decide, by decide⟩

/-- C9: starting from the empty registry, any sequence of full
replacements (each built from a response whose keys are distinct, as the
keys of a JavaScript object are), upserts and removals leaves every id
occurring at most once in the registry. -/
theorem C9_no_duplicate_ids {P M : Type} (ops : List (RegOp P M))
    (h : ∀ conns, RegOp.replaceAll conns ∈ ops →
      (conns.map Prod.fst).Nodup) :
    RegistryOk (applyOps [] ops) :=
  registryOk_applyOps [] ops (by rw [RegistryOk]; simp) h

/-- Witness for C9: a concrete replace/upsert/upsert/remove history keeps
the registry duplicate-free. -/
theorem C9_witness :
    RegistryOk (applyOps []
      [RegOp.replaceAll [("a", rcA), ("b", rcB)],
        RegOp.upsert (Network.ofResponse "b" rcA),
        RegOp.upsert (Network.ofResponse "c" rcB),
        RegOp.remove "a"]) :=
  C9_no_duplicate_ids
    [RegOp.replaceAll [("a", rcA), ("b", rcB)],
      RegOp.upsert (Network.ofResponse "b" rcA),
      RegOp.upsert (Network.ofResponse "c" rcB),
      RegOp.remove "a"]
    (by
      intro conns hm
      simp at hm
      subst hm
      decide)

/-- C7: while a per-connection metrics timer is live, a tick whose id is
absent from the registry snapshot, or present with a status other than
`connected`, issues no RPC and changes nothing; a tick whose entry is
connected issues exactly the `metrics` RPC, and the completion of that
call stores the returned sample in the per-request observable. -/
theorem C7_metricsTick_spec {P M X : Type} (s : Session P M X) (id : String)
    (h : s.metricsActive = true) :
    (findNetwork s.networks id = none →
      stepSession s (SessionEvent.metricsTick id) = (s, [])) ∧
    (∀ c : Network P M, findNetwork s.networks id = some c →
      c.connected = false →
      stepSession s (SessionEvent.metricsTick id) = (s, [])) ∧
    (∀ c : Network P M, findNetwork s.networks id = some c →
      c.connected = true →
      (stepSession s (SessionEvent.metricsTick id)).2 = [Rpc.metricsRpc id] ∧
      ∀ m : X, (stepSession (stepSession s (SessionEvent.metricsTick id)).1
        (SessionEvent.metricsComplete (Except.ok m))).1.metricsValue =
          some m) := by
  refine ⟨?_, ?_, ?_⟩
  · intro hnone
    simp [stepSession, h, hnone]
  · intro c hc hconn
    simp [stepSession, h, hc, hconn]
  · intro c hc hconn
    refine ⟨by simp [stepSession, h, hc, hconn], ?_⟩
    intro m
    simp [stepSession, h, hc, hconn]

/-- Witness for C7: with a connected `netA` in the registry, a tick for
`"a"` issues the metrics RPC; with only the disconnected `netB`, a tick
for `"b"` is skipped. -/
theorem C7_witness :
    (stepSession (⟨[netA], none, true, true, none, 0, 0⟩ :
        Session Nat Nat Nat)
      (SessionEvent.metricsTick "a")).2 = [Rpc.metricsRpc "a"] ∧
    stepSession (⟨[netB], none, true, true, none, 0, 0⟩ :
        Session Nat Nat Nat)
      (SessionEvent.metricsTick "b") =
      (⟨[netB], none, true, true, none, 0, 0⟩, []) :=
  ⟨((C7_metricsTick_spec (⟨[netA], none, true, true, none, 0, 0⟩ :
        Session Nat Nat Nat) "a"
      rfl).2.2 netA (by decide) (by decide)).1,
    (C7_metricsTick_spec ⟨[netB], none, true, true, none, 0, 0⟩ "b"
      rfl).2.1 netB (by decide) (by decide)⟩

end Webmesh

namespace Webmesh

/-- C8 counterexample: in the concrete trace "list tick issues an RPC,
teardown runs, then the in-flight call completes", the timer is torn down
(`listActive = false`) and exactly one RPC is in flight, yet the
completion is still applied — the registry changes from the pre-completion
snapshot to the fetched one — contradicting the claim that the result of a
call issued before teardown is not applied once teardown has happened. -/
theorem C8_counterexample :
    (runSession sessionStart
      [SessionEvent.listTick, SessionEvent.listTeardown]).2 =
      [Rpc.listConnections] ∧
    (runSession sessionStart
      [SessionEvent.listTick, SessionEvent.listTeardown]).1.listActive =
      false ∧
    (stepSession (runSession sessionStart
        [SessionEvent.listTick, SessionEvent.listTeardown]).1
      (SessionEvent.listComplete (Except.ok [("a", rcA)]))).1.networks ≠
      (runSession sessionStart
        [SessionEvent.listTick, SessionEvent.listTeardown]).1.networks := by
  decide

/-- C8 (amended): after teardown no future tick of either timer fires — a
list tick or metrics tick on a torn-down timer issues no RPC and leaves
the session unchanged; however, the result of a call already in flight
when teardown ran is still applied when it completes: a successful list
completion replaces the registry and a successful metrics completion
stores the sample, even with both timers torn down. -/
theorem C8_teardown_spec {P M X : Type} (s : Session P M X) (id : String)
    (conns : List (String × ConnResponse P M)) (m : X)
    (h1 : s.listActive = false) (h2 : s.metricsActive = false)
    (hp : s.pendingList ≠ 0) (hq : s.pendingMetrics ≠ 0) :
    stepSession s SessionEvent.listTick = (s, []) ∧
    stepSession s (SessionEvent.metricsTick id) = (s, []) ∧
    (stepSession s (SessionEvent.listComplete (Except.ok conns))).1.networks =
      conns.map (fun e => Network.ofResponse e.1 e.2) ∧
    (stepSession s
      (SessionEvent.metricsComplete (Except.ok m))).1.metricsValue =
      some m := by
  refine ⟨by simp [stepSession, h1], by simp [stepSession, h2], ?_, ?_⟩
  · simp [stepSession, hp]
  · simp [stepSession, hq]

/-- Witness for the amended C8 on a torn-down session with one in-flight
call per timer. -/
theorem C8_witness :
    stepSession (⟨[netA], none, false, false, none, 1, 1⟩ :
        Session Nat Nat Nat) SessionEvent.listTick =
      (⟨[netA], none, false, false, none, 1, 1⟩, []) ∧
    stepSession (⟨[netA], none, false, false, none, 1, 1⟩ :
        Session Nat Nat Nat) (SessionEvent.metricsTick "a") =
      (⟨[netA], none, false, false, none, 1, 1⟩, []) ∧
    (stepSession (⟨[netA], none, false, false, none, 1, 1⟩ :
        Session Nat Nat Nat)
      (SessionEvent.listComplete (Except.ok [("b", rcB)]))).1.networks =
      [("b", rcB)].map (fun e => Network.ofResponse e.1 e.2) ∧
    (stepSession (⟨[netA], none, false, false, none, 1, 1⟩ :
        Session Nat Nat Nat)
      (SessionEvent.metricsComplete (Except.ok 7))).1.metricsValue =
      some 7 :=
  C8_teardown_spec (⟨[netA], none, false, false, none, 1, 1⟩ :
      Session Nat Nat Nat) "a" [("b", rcB)] 7 rfl rfl
    (by decide) (by decide)

end Webmesh
